import Mathlib

/-!
Verification of the generic tabular data-view engine
(`src/components/common/DataTable.tsx` and its `AdvancedFilter` companion):
the multi-type filter system, free-text search, pagination and CSV export,
embedded shallowly over a model of JavaScript's dynamically-typed values.

Modelling conventions:
* JavaScript numbers are modelled as `Int` with a separate `nan` constructor;
  `Option Int` stands for "number or NaN" at comparison sites, and every
  relational comparison involving NaN is `false`, as in JavaScript.
* `parseFloat` is modelled on integer literals (an optional sign followed by
  a longest digit run); fractional/exponent syntax is not modelled, which is
  faithful on every value the claims exercise.
* `new Date(v)` is modelled on ISO `YYYY-MM-DD` strings, numbers, `null`
  and booleans; the returned code `y*10000 + m*100 + d` is strictly monotone
  in the calendar date, so date comparisons on this format agree with the
  epoch-millisecond comparisons JavaScript performs. Strings that do not
  match the format give `none` (JavaScript's Invalid Date, whose every
  comparison is false).
* Arrays and objects compare by reference in JavaScript; distinct literals
  are never equal, so the model's `===`/SameValueZero return `false` on them.
-/

namespace DataLens

/-- A JavaScript runtime value as it occurs in table records and filter
values: string, finite number, NaN, boolean, null, undefined, array, or
plain object (a key/value list). -/
inductive JVal where
  | str (s : String)
  | num (n : Int)
  | nan
  | bool (b : Bool)
  | null
  | undefined
  | arr (xs : List JVal)
  | obj (ps : List (String × JVal))

/-- JavaScript truthiness: `''`, `0`, `NaN`, `false`, `null`, `undefined`
are falsy; every array and object is truthy. -/
def truthy : JVal → Bool
  | JVal.str s => !s.isEmpty
  | JVal.num n => !(n == 0)
  | JVal.nan => false
  | JVal.bool b => b
  | JVal.null => false
  | JVal.undefined => false
  | JVal.arr _ => true
  | JVal.obj _ => true

mutual
/-- JavaScript `String(v)` coercion. Arrays stringify by joining their
elements with `,` (null/undefined elements become empty); objects render
as `[object Object]`. -/
def jsToString : JVal → String
  | JVal.str s => s
  | JVal.num n => toString n
  | JVal.nan => "NaN"
  | JVal.bool b => cond b "true" "false"
  | JVal.null => "null"
  | JVal.undefined => "undefined"
  | JVal.obj _ => "[object Object]"
  | JVal.arr xs => String.intercalate "," (jsToStrList xs)

/-- Element-wise stringification used by array `toString`/`join`. -/
def jsToStrList : List JVal → List String
  | [] => []
  | JVal.null :: vs => "" :: jsToStrList vs
  | JVal.undefined :: vs => "" :: jsToStrList vs
  | v :: vs => jsToString v :: jsToStrList vs
end

/-- Numeric value of a digit list read left to right (base 10). -/
def digitsVal (ds : List Char) : Nat :=
  ds.foldl (fun a c => a * 10 + (c.toNat - 48)) 0

/-- `parseFloat` on a string, restricted to integer literals: an optional
leading minus sign followed by a longest run of digits; `none` models NaN. -/
def parseNumStr (s : String) : Option Int :=
  match s.data with
  | '-' :: cs =>
      if (cs.takeWhile Char.isDigit).isEmpty then none
      else some (-(digitsVal (cs.takeWhile Char.isDigit) : Int))
  | cs =>
      if (cs.takeWhile Char.isDigit).isEmpty then none
      else some ((digitsVal (cs.takeWhile Char.isDigit) : Int))

/-- JavaScript `parseFloat(v)`: numbers pass through; strings parse per
`parseNumStr`; arrays coerce through their string form; everything else
(NaN, booleans, null, undefined, objects) yields NaN (`none`). -/
def parseFloatJ : JVal → Option Int
  | JVal.num n => some n
  | JVal.str s => parseNumStr s
  | JVal.arr xs => parseNumStr (jsToString (JVal.arr xs))
  | _ => none

/-- `Number(s)` on a string, restricted to integer literals: the whole
(trimmed-empty excepted) string must be digits; the empty string is 0. -/
def toNumberStr (s : String) : Option Int :=
  if s = "" then some 0
  else match s.data with
    | '-' :: cs =>
        if (!cs.isEmpty) && cs.all Char.isDigit then some (-(digitsVal cs : Int))
        else none
    | cs =>
        if cs.all Char.isDigit then some (digitsVal cs) else none

/-- JavaScript `ToNumber` coercion used by relational operators:
`true`/`false` are 1/0, `null` is 0, `undefined` is NaN, arrays and
objects coerce through their string form. -/
def toNumberJ : JVal → Option Int
  | JVal.num n => some n
  | JVal.nan => none
  | JVal.bool b => some (cond b 1 0)
  | JVal.null => some 0
  | JVal.undefined => none
  | JVal.str s => toNumberStr s
  | v => toNumberStr (jsToString v)

/-- `new Date(s)` on an ISO `YYYY-MM-DD` string: a date code monotone in
the calendar date, or `none` (Invalid Date) when the shape is wrong. -/
def parseDateStr (s : String) : Option Int :=
  match s.data with
  | [y1, y2, y3, y4, '-', m1, m2, '-', d1, d2] =>
      if [y1, y2, y3, y4, m1, m2, d1, d2].all Char.isDigit then
        if 1 ≤ digitsVal [m1, m2] ∧ digitsVal [m1, m2] ≤ 12
            ∧ 1 ≤ digitsVal [d1, d2] ∧ digitsVal [d1, d2] ≤ 31 then
          some ((digitsVal [y1, y2, y3, y4] * 10000
                  + digitsVal [m1, m2] * 100 + digitsVal [d1, d2] : Nat) : Int)
        else none
      else none
  | _ => none

/-- `new Date(v)` for the value shapes the table feeds it: strings parse
per `parseDateStr`, numbers are epoch timestamps, `null` and booleans
coerce to 0/1; everything else is Invalid Date (`none`). -/
def parseDateJ : JVal → Option Int
  | JVal.str s => parseDateStr s
  | JVal.num n => some n
  | JVal.null => some 0
  | JVal.bool b => some (cond b 1 0)
  | _ => none

/-- JavaScript `a < b` after ToNumber: false whenever either side is NaN. -/
def jsLtOpt : Option Int → Option Int → Bool
  | some a, some b => decide (a < b)
  | _, _ => false

/-- JavaScript `a > b` after ToNumber: false whenever either side is NaN. -/
def jsGtOpt : Option Int → Option Int → Bool
  | some a, some b => decide (b < a)
  | _, _ => false

/-- JavaScript `a >= b` after ToNumber: false whenever either side is NaN. -/
def jsGeOpt : Option Int → Option Int → Bool
  | some a, some b => decide (b ≤ a)
  | _, _ => false

/-- Strict equality `===`: same primitive type and value; `NaN === NaN` is
false; distinct array/object literals compare by reference, hence false. -/
def strictEq : JVal → JVal → Bool
  | JVal.str a, JVal.str b => a == b
  | JVal.num a, JVal.num b => a == b
  | JVal.bool a, JVal.bool b => a == b
  | JVal.null, JVal.null => true
  | JVal.undefined, JVal.undefined => true
  | _, _ => false

/-- SameValueZero, the equality used by `Array.prototype.includes` and
`Set`: like `===` but `NaN` equals `NaN`. -/
def svz : JVal → JVal → Bool
  | JVal.str a, JVal.str b => a == b
  | JVal.num a, JVal.num b => a == b
  | JVal.nan, JVal.nan => true
  | JVal.bool a, JVal.bool b => a == b
  | JVal.null, JVal.null => true
  | JVal.undefined, JVal.undefined => true
  | _, _ => false

/-- String containment, JavaScript `s.includes(t)`: the empty needle
always matches. -/
def strContains (s t : String) : Bool :=
  if t = "" then true else decide (2 ≤ (s.splitOn t).length)

/-- A table record: a JavaScript object mapping field keys to values.
Missing keys read as `undefined`. -/
abbrev Record := List (String × JVal)

/-- Property read `row[key]` on a record. -/
def jsLookup (row : Record) (k : String) : JVal :=
  ((row.find? (fun p => p.1 == k)).map Prod.snd).getD JVal.undefined

/-- Property read `v[key]` on an arbitrary value: objects look the key up,
every other value yields `undefined` (no string/array properties named
`from`, `to`, `min` or `max` exist). -/
def objGet : JVal → String → JVal
  | JVal.obj ps, k => ((ps.find? (fun p => p.1 == k)).map Prod.snd).getD JVal.undefined
  | _, _ => JVal.undefined

/-- The filter kinds of `DataTableProps.filterFields[].type`. -/
inductive FieldType where
  | text
  | select
  | multiSelect
  | dateRange
  | numberRange
  | slider
  | checkbox
deriving BEq, DecidableEq

/-- One entry of `filterFields`; only `key` and `type` take part in
filtering (label/options/min/max/step are display concerns). -/
structure FilterField where
  key : String
  type : FieldType

/-- `Array.prototype.includes`, which compares with SameValueZero. -/
def includesSVZ (l : List JVal) (x : JVal) : Bool :=
  l.any (fun u => svz u x)

/-- `value.flat()`: flatten one level of array nesting, keeping non-array
elements as they are. -/
def flatOne (xs : List JVal) : List JVal :=
  (xs.map (fun v => match v with | JVal.arr ys => ys | v => [v])).flatten

/-- `Array.from(new Set(l))`: deduplicate under SameValueZero, keeping the
first occurrence of each value in order. -/
def dedupSVZ (l : List JVal) : List JVal :=
  l.foldl (fun acc v => if acc.any (fun u => svz u v) then acc else acc ++ [v]) []

/-- The special-cased branch for the `predicted_claim_type` multiSelect
field: `value.flat ? Array.from(new Set(value.flat())).includes(rowValue)
: value.includes(rowValue)`. An array value is flattened one level and
deduplicated; a string value (no `.flat` method) falls back to string
`includes` on the stringified row value. Other value shapes have no
usable `includes` (a TypeError in JavaScript, unreachable through the
filter UI) and are modelled as no match. -/
def pctMatch (value rowValue : JVal) : Bool :=
  match value with
  | JVal.arr xs => includesSVZ (dedupSVZ (flatOne xs)) rowValue
  | JVal.str s => strContains s (jsToString rowValue)
  | _ => false

/-- `text` filter: case-insensitive substring containment
`String(rowValue).toLowerCase().includes(String(value).toLowerCase())`. -/
def textMatch (value rowValue : JVal) : Bool :=
  strContains (jsToString rowValue).toLower (jsToString value).toLower

/-- `select` filter: strict equality `rowValue === value`. -/
def selectMatch (value rowValue : JVal) : Bool :=
  strictEq rowValue value

/-- `multiSelect` filter: `Array.isArray(value) && value.includes(rowValue)`. -/
def multiSelectMatch (value rowValue : JVal) : Bool :=
  match value with
  | JVal.arr xs => includesSVZ xs rowValue
  | _ => false

/-- `dateRange` filter. Both bounds falsy: match all. Otherwise
`if (value.from && rowDate < new Date(value.from)) return false;`
`if (value.to && rowDate > new Date(value.to)) return false; return true`,
where each comparison against an Invalid Date (NaN) is false. -/
def dateRangeMatch (value rowValue : JVal) : Bool :=
  if !truthy (objGet value "from") && !truthy (objGet value "to") then true
  else if truthy (objGet value "from")
      && jsLtOpt (parseDateJ rowValue) (parseDateJ (objGet value "from")) then false
  else if truthy (objGet value "to")
      && jsGtOpt (parseDateJ rowValue) (parseDateJ (objGet value "to")) then false
  else true

/-- `numberRange` filter:
`if (value.min && numValue < parseFloat(value.min)) return false;`
`if (value.max && numValue > parseFloat(value.max)) return false;`
`return true`, where `numValue = parseFloat(rowValue)` and each comparison
involving NaN is false. -/
def numberRangeMatch (value rowValue : JVal) : Bool :=
  if truthy (objGet value "min")
      && jsLtOpt (parseFloatJ rowValue) (parseFloatJ (objGet value "min")) then false
  else if truthy (objGet value "max")
      && jsGtOpt (parseFloatJ rowValue) (parseFloatJ (objGet value "max")) then false
  else true

/-- `slider` filter: `parseFloat(rowValue) >= value`. -/
def sliderMatch (value rowValue : JVal) : Bool :=
  jsGeOpt (parseFloatJ rowValue) (toNumberJ value)

/-- `checkbox` filter: `value ? rowValue : true` — when checked the row
value must be truthy, otherwise unconstrained. -/
def checkboxMatch (value rowValue : JVal) : Bool :=
  if truthy value then truthy rowValue else true

/-- The per-row predicate of the advanced-filter callback in `DataTable`:
the `predicted_claim_type` multiSelect special case first, then the
`switch (field.type)` dispatch. -/
def rowMatches (field : FilterField) (value rowValue : JVal) : Bool :=
  if field.key == "predicted_claim_type" && field.type == FieldType.multiSelect then
    pctMatch value rowValue
  else
    match field.type with
    | FieldType.text => textMatch value rowValue
    | FieldType.select => selectMatch value rowValue
    | FieldType.multiSelect => multiSelectMatch value rowValue
    | FieldType.dateRange => dateRangeMatch value rowValue
    | FieldType.numberRange => numberRangeMatch value rowValue
    | FieldType.slider => sliderMatch value rowValue
    | FieldType.checkbox => checkboxMatch value rowValue

/-- The guard `if (!value || (Array.isArray(value) && value.length === 0))
return;` — a falsy value or an empty array deactivates the filter. -/
def skipFilter : JVal → Bool
  | JVal.arr xs => xs.isEmpty
  | v => !truthy v

/-- Application of one `advancedFilters` entry to the running filtered
list: skip empty values, skip keys with no descriptor in `filterFields`,
otherwise keep the rows the predicate accepts. -/
def applyOne (filterFields : List FilterField) (acc : List Record)
    (kv : String × JVal) : List Record :=
  if skipFilter kv.2 then acc
  else
    match filterFields.find? (fun f => f.key == kv.1) with
    | none => acc
    | some field => acc.filter (fun row => rowMatches field kv.2 (jsLookup row kv.1))

/-- `Object.entries(advancedFilters).forEach(...)`: fold the filter
entries, in order, over the searched list. -/
def applyFilters (filterFields : List FilterField)
    (advancedFilters : List (String × JVal)) (rows : List Record) : List Record :=
  advancedFilters.foldl (applyOne filterFields) rows

/-- The free-text search stage: with a non-empty term, keep the rows one
of whose values contains the term case-insensitively. -/
def searchFilter (term : String) (data : List Record) : List Record :=
  if term = "" then data
  else data.filter (fun row =>
    row.any (fun kv => strContains (jsToString kv.2).toLower term.toLower))

/-- `filteredData`: the search stage followed by the advanced-filter
stages, exactly as the `useMemo` body computes it. -/
def filteredData (data : List Record) (searchTerm : String)
    (advancedFilters : List (String × JVal))
    (filterFields : List FilterField) : List Record :=
  applyFilters filterFields advancedFilters (searchFilter searchTerm data)

/-- `totalPages = Math.ceil(filteredData.length / pageSize)` for a positive
page size, as a natural-number ceiling division. -/
def totalPages (n p : Nat) : Nat := (n + p - 1) / p

/-- `filteredData.slice((page-1)*pageSize, page*pageSize)`: the records of
one page. -/
def paginatedData {α : Type} (l : List α) (page p : Nat) : List α :=
  (l.drop ((page - 1) * p)).take p

/-- The totalPages formula as the spec words it: `max(1, ceil(n / p))`,
kept separate to compare against the code's `totalPages`. -/
def totalPagesSpec (n p : Nat) : Nat := max 1 ((n + p - 1) / p)

/-- One display column of the table: the record key it reads and the
header label it shows. -/
structure Column where
  key : String
  label : String

/-- The regex replace `/"/g → ""` of `exportToCSV`: double every double
quote of the cell text. -/
def escQuote (s : String) : String :=
  String.mk (s.data.foldr (fun c acc => if c = '"' then '"' :: '"' :: acc else c :: acc) [])

/-- `value || ''`: a falsy cell value is replaced by the empty string
before stringification. -/
def jsOrEmpty (v : JVal) : JVal :=
  if truthy v then v else JVal.str ""

/-- One CSV cell: `"${String(value || '').replace(/"/g, '""')}"`. -/
def csvCell (v : JVal) : String :=
  "\"" ++ escQuote (jsToString (jsOrEmpty v)) ++ "\""

/-- One CSV data row: the row's cells for exactly the display columns,
joined with commas. -/
def csvRow (columns : List Column) (row : Record) : String :=
  String.intercalate "," (columns.map (fun c => csvCell (jsLookup row c.key)))

/-- The list the code joins with newlines: the header of column labels,
then one row per record of the entire filtered set. -/
def csvLines (columns : List Column) (filtered : List Record) : List String :=
  String.intercalate "," (columns.map Column.label) :: filtered.map (csvRow columns)

/-- `csvContent` of `exportToCSV`: the lines joined with `\n`. -/
def exportToCSV (columns : List Column) (filtered : List Record) : String :=
  String.intercalate "\n" (csvLines columns filtered)

/-- The mutable view state of one `DataTable`: the record collection the
caller last supplied, the search term, the advanced-filter values and the
current page. -/
structure TableState where
  data : List Record
  searchTerm : String
  advancedFilters : List (String × JVal)
  currentPage : Nat

/-- The initial state: empty search, no filters, page 1. -/
def initState (data : List Record) : TableState :=
  { data := data, searchTerm := "", advancedFilters := [], currentPage := 1 }

/-- The filtered records a state derives. -/
def stFiltered (filterFields : List FilterField) (s : TableState) : List Record :=
  filteredData s.data s.searchTerm s.advancedFilters filterFields

/-- The `totalPages` a state derives for a given page size. -/
def stTotalPages (filterFields : List FilterField) (ps : Nat) (s : TableState) : Nat :=
  totalPages (stFiltered filterFields s).length ps

/-- `handlePageChange(page)`: move only when `1 <= page <= totalPages`,
otherwise leave the state unchanged. -/
def handlePageChange (filterFields : List FilterField) (ps : Nat)
    (s : TableState) (page : Nat) : TableState :=
  if 1 ≤ page ∧ page ≤ stTotalPages filterFields ps s then
    { s with currentPage := page }
  else s

/-- The synchronous state transitions of the table: changing the search
term or the filters resets the page to 1 (the `useEffect` watching them),
page changes go through `handlePageChange`, and replacing the record
collection wholesale touches nothing else — in particular it leaves
`currentPage` as it is. -/
inductive Step (filterFields : List FilterField) (ps : Nat) :
    TableState → TableState → Prop where
  | setSearch (s : TableState) (t : String) :
      Step filterFields ps s
        { data := s.data, searchTerm := t,
          advancedFilters := s.advancedFilters, currentPage := 1 }
  | setFilters (s : TableState) (f : List (String × JVal)) :
      Step filterFields ps s
        { data := s.data, searchTerm := s.searchTerm,
          advancedFilters := f, currentPage := 1 }
  | pageChange (s : TableState) (page : Nat) :
      Step filterFields ps s (handlePageChange filterFields ps s page)
  | replaceRecords (s : TableState) (d : List Record) :
      Step filterFields ps s
        { data := d, searchTerm := s.searchTerm,
          advancedFilters := s.advancedFilters, currentPage := s.currentPage }

/-- Reachability from a fixed starting state: zero or more transitions. -/
inductive Reachable (filterFields : List FilterField) (ps : Nat)
    (s0 : TableState) : TableState → Prop where
  | refl : Reachable filterFields ps s0 s0
  | tail {t u : TableState} : Reachable filterFields ps s0 t →
      Step filterFields ps t u → Reachable filterFields ps s0 u

/-- Five one-field records, the collection the C4 scenario starts from. -/
def fiveRecords : List Record :=
  [[("a", JVal.num 1)], [("a", JVal.num 2)], [("a", JVal.num 3)],
   [("a", JVal.num 4)], [("a", JVal.num 5)]]

/-- The single-record collection the C4 scenario replaces the data with. -/
def oneRecord : List Record := [[("a", JVal.num 9)]]

/-- The state the C4 scenario ends in: the replaced collection with the
stale page number 3. -/
def staleState : TableState :=
  { data := oneRecord, searchTerm := "", advancedFilters := [], currentPage := 3 }

/-! ## Helper lemmas -/

/-- A comparison whose left side is NaN is false. -/
lemma jsLtOpt_none_left (b : Option Int) : jsLtOpt none b = false := by
  cases b <;> rfl

/-- A comparison whose left side is NaN is false. -/
lemma jsGtOpt_none_left (b : Option Int) : jsGtOpt none b = false := by
  cases b <;> rfl

/-- On a `numberRange` field the special `predicted_claim_type` branch is
never taken (its guard also requires the `multiSelect` kind), so the
predicate is `numberRangeMatch` for every key. -/
lemma rowMatches_numberRange (k : String) (value rowValue : JVal) :
    rowMatches ⟨k, FieldType.numberRange⟩ value rowValue
      = numberRangeMatch value rowValue := by
  cases hke : (k == "predicted_claim_type") <;>
    simp [rowMatches, hke,
      show (FieldType.numberRange == FieldType.multiSelect) = false from rfl]

/-- On a `dateRange` field the special `predicted_claim_type` branch is
never taken, so the predicate is `dateRangeMatch` for every key. -/
lemma rowMatches_dateRange (k : String) (value rowValue : JVal) :
    rowMatches ⟨k, FieldType.dateRange⟩ value rowValue
      = dateRangeMatch value rowValue := by
  cases hke : (k == "predicted_claim_type") <;>
    simp [rowMatches, hke,
      show (FieldType.dateRange == FieldType.multiSelect) = false from rfl]

/-- SameValueZero is transitive. -/
lemma svz_trans {a b c : JVal} (h1 : svz a b = true) (h2 : svz b c = true) :
    svz a c = true := by
  cases a <;> cases b <;> cases c <;> simp_all [svz]

/-- Folding the Set-insertion step preserves which values are found by a
SameValueZero membership test. -/
lemma dedupFold_any (x : JVal) : ∀ (l acc : List JVal),
    ((l.foldl (fun acc v => if acc.any (fun u => svz u v) then acc else acc ++ [v])
        acc).any (fun u => svz u x))
      = (acc.any (fun u => svz u x) || l.any (fun u => svz u x))
  | [], acc => by simp
  | v :: l, acc => by
      rw [List.foldl_cons]
      by_cases h : acc.any (fun u => svz u v) = true
      · rw [if_pos h, dedupFold_any x l acc]
        by_cases hvx : svz v x = true
        · obtain ⟨u, hu, huv⟩ := List.any_eq_true.mp h
          have hux : acc.any (fun u => svz u x) = true :=
            List.any_eq_true.mpr ⟨u, hu, svz_trans huv hvx⟩
          simp [hux]
        · have hvx' : svz v x = false := by revert hvx; cases svz v x <;> simp
          simp [List.any_cons, hvx']
      · rw [if_neg h, dedupFold_any x l (acc ++ [v])]
        simp [List.any_append, List.any_cons, Bool.or_assoc]

/-- `Array.from(new Set(l))` does not change what `includes` finds. -/
lemma includesSVZ_dedup (l : List JVal) (x : JVal) :
    includesSVZ (dedupSVZ l) x = includesSVZ l x := by
  unfold includesSVZ dedupSVZ
  rw [dedupFold_any]
  simp

/-- The code's `totalPages` covers the whole filtered list:
`n ≤ totalPages n p * p`. -/
lemma le_totalPages_mul (n p : Nat) (hp : 0 < p) : n ≤ totalPages n p * p := by
  unfold totalPages
  have h1 : p * ((n + p - 1) / p) + (n + p - 1) % p = n + p - 1 :=
    Nat.div_add_mod _ _
  have h2 : (n + p - 1) % p < p := Nat.mod_lt _ hp
  rw [mul_comm]
  generalize hq : p * ((n + p - 1) / p) = q at h1 ⊢
  omega

/-- The code's `totalPages` has no spare page: `totalPages n p * p < n + p`. -/
lemma totalPages_mul_lt (n p : Nat) (hp : 0 < p) : totalPages n p * p < n + p := by
  unfold totalPages
  have h1 : (n + p - 1) / p * p ≤ n + p - 1 := Nat.div_mul_le_self _ _
  generalize hq : (n + p - 1) / p * p = q at h1 ⊢
  omega

/-- The code's `totalPages` is zero exactly on an empty filtered list. -/
lemma totalPages_eq_zero_iff (n p : Nat) (hp : 0 < p) :
    totalPages n p = 0 ↔ n = 0 := by
  constructor
  · intro h0
    have h := le_totalPages_mul n p hp
    rw [h0] at h
    simpa using h
  · intro hn
    subst hn
    unfold totalPages
    exact Nat.div_eq_of_lt (by omega)

/-- Concatenating the size-`p` chunks taken at offsets `0, p, 2p, …`
reconstructs any list of length at most `k * p`. -/
lemma flatten_chunks {α : Type} (p : Nat) : ∀ (k : Nat) (l : List α),
    l.length ≤ k * p →
    ((List.range k).map (fun i => (l.drop (i * p)).take p)).flatten = l := by
  intro k
  induction k with
  | zero =>
      intro l h
      rw [Nat.zero_mul] at h
      have hl : l = [] := List.eq_nil_of_length_eq_zero (Nat.le_zero.mp h)
      subst hl
      simp
  | succ k ih =>
      intro l h
      rw [List.range_succ_eq_map, List.map_cons, List.map_map, List.flatten_cons]
      have hz : (l.drop (0 * p)).take p = l.take p := by simp
      rw [hz]
      have hcomp : ((fun i => (l.drop (i * p)).take p) ∘ Nat.succ)
          = fun i => (((l.drop p).drop (i * p)).take p) := by
        funext i
        simp only [Function.comp]
        rw [List.drop_drop, Nat.succ_mul, Nat.add_comm (i * p) p]
      rw [hcomp]
      have hlen : (l.drop p).length ≤ k * p := by
        have hs : (k + 1) * p = k * p + p := Nat.succ_mul k p
        rw [hs] at h
        simp only [List.length_drop]
        omega
      rw [ih (l.drop p) hlen]
      exact List.take_append_drop p l

/-- Every transition of the table keeps `currentPage` at least 1. -/
lemma step_page_ge_one {filterFields : List FilterField} {ps : Nat}
    {s t : TableState} (hs : Step filterFields ps s t)
    (h : 1 ≤ s.currentPage) : 1 ≤ t.currentPage := by
  cases hs with
  | setSearch t' => exact Nat.le_refl 1
  | setFilters f => exact Nat.le_refl 1
  | pageChange page =>
      unfold handlePageChange
      split
      · next hcond => simpa using hcond.1
      · exact h
  | replaceRecords d => exact h

/-! ## The claims -/

/-- C1 counterexample: `"abc"` does not parse as a number, the `min: 2`
bound is active, and yet the record survives `filteredData` — the code is
fail-open here, not fail-closed as the claim states. -/
theorem c1_counterexample :
    parseFloatJ (JVal.str "abc") = none
    ∧ truthy (objGet (JVal.obj [("min", JVal.num 2)]) "min") = true
    ∧ filteredData [[("n", JVal.str "abc")]] ""
        [("n", JVal.obj [("min", JVal.num 2)])] [⟨"n", FieldType.numberRange⟩]
      = [[("n", JVal.str "abc")]] :=
  ⟨rfl, rfl, rfl⟩

/-- C1 (amended): when the record's field value does not parse as a number
(`parseFloat` yields NaN), every `numberRange` filter — whatever bounds it
carries — matches the record, because both negated bound comparisons are
false on NaN; the record is retained (fail-open). -/
theorem c1_nan_number_fail_open (k : String) (value rowValue : JVal)
    (h : parseFloatJ rowValue = none) :
    rowMatches ⟨k, FieldType.numberRange⟩ value rowValue = true := by
  rw [rowMatches_numberRange]
  unfold numberRangeMatch
  rw [h, jsLtOpt_none_left, jsGtOpt_none_left]
  simp

/-- C1 witness: the amended theorem at the concrete unparsable value. -/
theorem c1_nan_number_fail_open_witness :
    rowMatches ⟨"n", FieldType.numberRange⟩ (JVal.obj [("min", JVal.num 2)])
      (JVal.str "abc") = true :=
  c1_nan_number_fail_open "n" (JVal.obj [("min", JVal.num 2)]) (JVal.str "abc") rfl

/-- C2 counterexample: scenario D itself. `"not-a-date"` fails to parse,
the `from` bound is active, and the record survives `filteredData` — the
date filter is fail-open, not fail-closed. -/
theorem c2_counterexample :
    parseDateJ (JVal.str "not-a-date") = none
    ∧ truthy (objGet (JVal.obj [("from", JVal.str "2024-01-01")]) "from") = true
    ∧ filteredData [[("d", JVal.str "not-a-date")]] ""
        [("d", JVal.obj [("from", JVal.str "2024-01-01")])]
        [⟨"d", FieldType.dateRange⟩]
      = [[("d", JVal.str "not-a-date")]] :=
  ⟨rfl, rfl, rfl⟩

/-- C2 (amended): when the record's field value does not parse as a date
(Invalid Date), every `dateRange` filter matches the record, because both
negated bound comparisons are false on NaN; the record is retained
(fail-open). -/
theorem c2_invalid_date_fail_open (k : String) (value rowValue : JVal)
    (h : parseDateJ rowValue = none) :
    rowMatches ⟨k, FieldType.dateRange⟩ value rowValue = true := by
  rw [rowMatches_dateRange]
  unfold dateRangeMatch
  rw [h, jsLtOpt_none_left, jsGtOpt_none_left]
  simp

/-- C2 witness: the amended theorem at scenario D's concrete input. -/
theorem c2_invalid_date_fail_open_witness :
    rowMatches ⟨"d", FieldType.dateRange⟩
      (JVal.obj [("from", JVal.str "2024-01-01")]) (JVal.str "not-a-date") = true :=
  c2_invalid_date_fail_open "d" (JVal.obj [("from", JVal.str "2024-01-01")])
    (JVal.str "not-a-date") rfl

/-- C3 counterexample: on an empty filtered set with page size 2 the code
computes `totalPages = 0`, not the spec's `max(1, ceil(0/2)) = 1`. -/
theorem c3_counterexample :
    totalPages 0 2 = 0 ∧ totalPagesSpec 0 2 = 1
    ∧ totalPages 0 2 ≠ totalPagesSpec 0 2 := by
  decide

/-- C3 (amended): the code's `totalPages` is the exact ceiling of
`n / p` with no lower clamp — it is the least page count whose pages cover
all `n` records, and it is 0 (not 1) exactly when the filtered set is
empty. -/
theorem c3_totalPages_ceil (n p : Nat) (hp : 0 < p) :
    n ≤ totalPages n p * p ∧ totalPages n p * p < n + p
    ∧ (totalPages n p = 0 ↔ n = 0) :=
  ⟨le_totalPages_mul n p hp, totalPages_mul_lt n p hp,
   totalPages_eq_zero_iff n p hp⟩

/-- C3 witness: scenario B's numbers — 5 records at page size 2 give 3
pages — plus the amended characterization at that input. -/
theorem c3_totalPages_ceil_witness :
    (5 ≤ totalPages 5 2 * 2 ∧ totalPages 5 2 * 2 < 5 + 2
      ∧ (totalPages 5 2 = 0 ↔ 5 = 0))
    ∧ totalPages 5 2 = 3 ∧ totalPages 0 2 = 0 :=
  ⟨c3_totalPages_ceil 5 2 (by decide), by decide, by decide⟩

/-- C4 counterexample: from 5 records at page size 2 (3 pages), move to
page 3, then replace the collection by a single record. The new
`totalPages` is 1 but `currentPage` stays 3 — no clamping happens on a
data replacement, so the claimed invariant fails in a reachable state. -/
theorem c4_counterexample :
    Reachable [] 2 (initState fiveRecords) staleState
    ∧ ¬(staleState.currentPage ≤ max 1 (stTotalPages [] 2 staleState)) := by
  constructor
  · exact Reachable.tail
      (Reachable.tail Reachable.refl (Step.pageChange _ 3))
      (Step.replaceRecords _ oneRecord)
  · decide

/-- C4 (amended): in every reachable state `currentPage ≥ 1` — search and
filter changes reset it to 1 and `handlePageChange` only accepts pages
from 1 up — but `replaceRecords` leaves `currentPage` untouched, so the
upper bound `max(1, totalPages)` does not survive a data replacement. -/
theorem c4_page_ge_one (filterFields : List FilterField) (ps : Nat)
    (data : List Record) (s : TableState)
    (h : Reachable filterFields ps (initState data) s) :
    1 ≤ s.currentPage := by
  induction h with
  | refl => exact Nat.le_refl 1
  | tail hr hs ih => exact step_page_ge_one hs ih

/-- C4 witness: the amended theorem at the initial state itself. -/
theorem c4_page_ge_one_witness : 1 ≤ (initState []).currentPage :=
  c4_page_ge_one [] 2 [] (initState []) Reachable.refl

/-- C5: concatenating the page slices for pages `1..totalPages` in order
reconstructs the filtered list exactly — nothing duplicated, nothing
lost. -/
theorem c5_pagination_complete {α : Type} (l : List α) (p : Nat) (hp : 0 < p) :
    ((List.range (totalPages l.length p)).map
      (fun i => paginatedData l (i + 1) p)).flatten = l := by
  have hfun : (fun i => paginatedData l (i + 1) p)
      = fun i => (l.drop (i * p)).take p := by
    funext i
    unfold paginatedData
    simp
  rw [hfun]
  exact flatten_chunks p (totalPages l.length p) l (le_totalPages_mul l.length p hp)

/-- C5 witness: five records at page size 2 — pages `[0,1]`, `[2,3]`,
`[4]` — concatenate back to the list. -/
theorem c5_pagination_complete_witness :
    ((List.range (totalPages ([0, 1, 2, 3, 4] : List Nat).length 2)).map
      (fun i => paginatedData ([0, 1, 2, 3, 4] : List Nat) (i + 1) 2)).flatten
      = [0, 1, 2, 3, 4] :=
  c5_pagination_complete [0, 1, 2, 3, 4] 2 (by decide)

/-- C6: a filter entry holding an empty `multiSelect` array or an empty
`select` string is skipped by the guard, so `filteredData` is exactly what
it is with that entry absent — unconstrained, not "matches nothing". -/
theorem c6_empty_filter_identity (data : List Record) (term : String)
    (filterFields : List FilterField) (pre post : List (String × JVal))
    (k k2 : String) :
    filteredData data term (pre ++ (k, JVal.arr []) :: post) filterFields
      = filteredData data term (pre ++ post) filterFields
    ∧ filteredData data term (pre ++ (k2, JVal.str "") :: post) filterFields
      = filteredData data term (pre ++ post) filterFields := by
  constructor <;>
    simp [filteredData, applyFilters, List.foldl_append, applyOne, skipFilter,
      truthy, show ("" : String).isEmpty = true from rfl]

/-- C7 counterexample: the header line is `headers.join(',')` — the raw
labels, not quoted cells — so with 3 columns and 2 records the export is
3 lines, but the first line's cells carry no double quotes, against the
claim that every cell of every line is a quoted cell. -/
theorem c7_counterexample :
    (csvLines [⟨"a", "A"⟩, ⟨"b", "B"⟩, ⟨"c", "C"⟩]
        [[("a", JVal.str "1")], [("b", JVal.num 2)]]).head?
      = some "A,B,C"
    ∧ "A,B,C" ≠ "\"A\",\"B\",\"C\"" := by
  exact ⟨rfl, by decide⟩

/-- C7 (amended): CSV export emits `1 + n` lines for `n` filtered records
whatever the current page is; the first line is the column labels joined
with commas (unquoted); each record contributes one line of exactly one
cell per display column; every data-row cell is wrapped in double quotes
with internal quotes doubled; a missing or null value renders as the empty
quoted cell. -/
theorem c7_csv_shape (columns : List Column) (filtered : List Record) :
    (csvLines columns filtered).length = 1 + filtered.length
    ∧ (csvLines columns filtered).head?
        = some (String.intercalate "," (columns.map Column.label))
    ∧ (∀ row, row ∈ filtered →
        ∃ cells : List String, cells.length = columns.length
          ∧ csvRow columns row = String.intercalate "," cells
          ∧ csvRow columns row ∈ (csvLines columns filtered).tail
          ∧ ∀ cell, cell ∈ cells → ∃ inner : String, cell = "\"" ++ inner ++ "\"")
    ∧ (∀ v : JVal, v = JVal.null ∨ v = JVal.undefined → csvCell v = "\"\"")
    ∧ csvCell (JVal.str "a\"b") = "\"a\"\"b\"" := by
  refine ⟨?_, ?_, ?_, ?_, ?_⟩
  · simp [csvLines, Nat.add_comm]
  · exact rfl
  · intro row hrow
    have h1 : (columns.map (fun c => csvCell (jsLookup row c.key))).length
        = columns.length := List.length_map _ _
    have h2 : csvRow columns row
        = String.intercalate "," (columns.map (fun c => csvCell (jsLookup row c.key))) :=
      rfl
    have h3 : csvRow columns row ∈ (csvLines columns filtered).tail :=
      List.mem_map_of_mem _ hrow
    refine ⟨_, h1, h2, h3, ?_⟩
    intro cell hcell
    obtain ⟨c, hc, hc2⟩ := List.mem_map.mp hcell
    exact ⟨escQuote (jsToString (jsOrEmpty (jsLookup row c.key))), hc2.symm⟩
  · rintro v (rfl | rfl)
    · exact rfl
    · exact rfl
  · exact rfl

/-- C7 witness: scenario E's shape — 3 columns and 2 records give 3 lines
— and the null cell of the amended theorem, at concrete inputs. -/
theorem c7_csv_shape_witness :
    (csvLines [⟨"a", "A"⟩, ⟨"b", "B"⟩, ⟨"c", "C"⟩]
        [[("a", JVal.str "1")], [("b", JVal.num 2)]]).length = 1 + 2
    ∧ csvCell JVal.null = "\"\"" :=
  ⟨(c7_csv_shape [⟨"a", "A"⟩, ⟨"b", "B"⟩, ⟨"c", "C"⟩]
      [[("a", JVal.str "1")], [("b", JVal.num 2)]]).1,
   (c7_csv_shape [⟨"a", "A"⟩, ⟨"b", "B"⟩, ⟨"c", "C"⟩]
      [[("a", JVal.str "1")], [("b", JVal.num 2)]]).2.2.2.1
     JVal.null (Or.inl rfl)⟩

/-- C8: on the `predicted_claim_type` multiSelect field the selected-value
array is flattened one level and deduplicated before the membership test,
so the predicate is membership in the flattened list — a nested array's
elements match. On every other multiSelect key the predicate is direct
membership in the value array, and a nested array element itself never
equals a row value (arrays compare by reference), so its contents cannot
match there. -/
theorem c8_pct_flatten (vs : List JVal) (x : JVal) (k : String)
    (hk : (k == "predicted_claim_type") = false) :
    rowMatches ⟨"predicted_claim_type", FieldType.multiSelect⟩ (JVal.arr vs) x
      = includesSVZ (flatOne vs) x
    ∧ rowMatches ⟨k, FieldType.multiSelect⟩ (JVal.arr vs) x = includesSVZ vs x
    ∧ ∀ ys : List JVal, svz (JVal.arr ys) x = false := by
  refine ⟨?_, ?_, ?_⟩
  · show includesSVZ (dedupSVZ (flatOne vs)) x = includesSVZ (flatOne vs) x
    exact includesSVZ_dedup _ _
  · simp [rowMatches, hk, multiSelectMatch]
  · intro ys
    cases x <;> rfl

/-- C8 witness: the nested pair `["없음", "알 수 없음"]` inside the selected
values matches a record whose field is `"없음"` on `predicted_claim_type`,
and fails to match on any other multiSelect field. -/
theorem c8_pct_flatten_witness :
    rowMatches ⟨"predicted_claim_type", FieldType.multiSelect⟩
        (JVal.arr [JVal.str "정상", JVal.arr [JVal.str "없음", JVal.str "알 수 없음"]])
        (JVal.str "없음") = true
    ∧ rowMatches ⟨"other_field", FieldType.multiSelect⟩
        (JVal.arr [JVal.str "정상", JVal.arr [JVal.str "없음", JVal.str "알 수 없음"]])
        (JVal.str "없음") = false := by
  have h := c8_pct_flatten
    [JVal.str "정상", JVal.arr [JVal.str "없음", JVal.str "알 수 없음"]]
    (JVal.str "없음") "other_field" (by decide)
  exact ⟨h.1.trans (by decide), h.2.1.trans (by decide)⟩

/-- C9: every falsy cell value — null, undefined, `0`, `false`, NaN, the
empty string — exports as the empty quoted cell, indistinguishable from an
absent value, because the code stringifies `value || ''`. -/
theorem c9_falsy_cell_empty (v : JVal) (h : truthy v = false) :
    csvCell v = "\"\"" ∧ csvCell v = csvCell JVal.undefined := by
  unfold csvCell jsOrEmpty
  rw [h]
  exact ⟨rfl, rfl⟩

/-- C9 witness: the number 0 and the boolean false export as empty quoted
cells equal to an absent value's cell. -/
theorem c9_falsy_cell_empty_witness :
    (csvCell (JVal.num 0) = "\"\""
      ∧ csvCell (JVal.num 0) = csvCell JVal.undefined)
    ∧ (csvCell (JVal.bool false) = "\"\""
      ∧ csvCell (JVal.bool false) = csvCell JVal.undefined) :=
  ⟨c9_falsy_cell_empty (JVal.num 0) rfl,
   c9_falsy_cell_empty (JVal.bool false) rfl⟩

/-- C10: a `numberRange` bound equal to the number 0 is falsy, so its
comparison branch is never taken: with `min: 0` (or `max: 0`) and no other
bound every record matches, whatever its field value. -/
theorem c10_zero_bound_no_constraint (k : String) (rowValue : JVal) :
    rowMatches ⟨k, FieldType.numberRange⟩ (JVal.obj [("min", JVal.num 0)])
        rowValue = true
    ∧ rowMatches ⟨k, FieldType.numberRange⟩ (JVal.obj [("max", JVal.num 0)])
        rowValue = true := by
  constructor <;> rw [rowMatches_numberRange] <;> rfl

end DataLens
